import Mathlib

/-!
Shallow embedding of the chainlit news chatbot (files `src/chatbot/chat.py`
and `src/chatbot/chatbot/chatlit.py`).

External collaborators are modelled as oracle functions:
* the completion provider is `llm : List Msg → String` (a deterministic map
  from the message list sent to the text returned);
* the news provider / HTTP layer is `http : String → HttpOutcome`, keyed by
  the request URL;
* Python values coming from `json.load` / `response.json()` are modelled by
  the inductive `Json`.

Stateful code (the chainlit session variable, the archive file) is embedded
by explicit state passing; Python exceptions that the code does not catch
are modelled with `Except String`, the `String` being the text of the
escaping exception.
-/

/-- A chat message dict `\x7b"role": r, "content": c\x7d` as the Python code
builds and consumes everywhere. -/
structure Msg where
  role : String
  content : String
deriving DecidableEq, Repr

/-- A Python value produced by `json.load` / `response.json()`: the JSON
data model (objects are modelled as association lists, numbers as integers). -/
inductive Json where
  | null : Json
  | bool (b : Bool) : Json
  | num (n : Int) : Json
  | str (s : String) : Json
  | arr (xs : List Json) : Json
  | obj (kvs : List (String × Json)) : Json

/-- Python truthiness of a JSON-shaped value (`if all_history:`,
`if not history:`): empty containers, empty string, zero, `None` and
`False` are falsy. -/
def Json.truthy : Json → Bool
  | .null => false
  | .bool b => b
  | .num n => n != 0
  | .str s => s != ""
  | .arr xs => !xs.isEmpty
  | .obj kvs => !kvs.isEmpty

mutual

/-- Python `str(v)` for a JSON-shaped value, as an f-string renders it.
For lists and dicts this is an approximation of CPython's `repr`-based
rendering (quote choice inside nested strings is simplified); no claim
evaluates it on a nested value. -/
def pyStr : Json → String
  | .null => "None"
  | .bool true => "True"
  | .bool false => "False"
  | .num n => toString n
  | .str s => s
  | .arr xs => "[" ++ String.intercalate ", " (pyReprList xs) ++ "]"
  | .obj kvs => "\x7b" ++ String.intercalate ", " (pyReprPairs kvs) ++ "\x7d"

/-- Python `repr(v)`, approximated (strings always single-quoted). -/
def pyRepr : Json → String
  | .str s => "'" ++ s ++ "'"
  | .null => "None"
  | .bool true => "True"
  | .bool false => "False"
  | .num n => toString n
  | .arr xs => "[" ++ String.intercalate ", " (pyReprList xs) ++ "]"
  | .obj kvs => "\x7b" ++ String.intercalate ", " (pyReprPairs kvs) ++ "\x7d"

def pyReprList : List Json → List String
  | [] => []
  | x :: xs => pyRepr x :: pyReprList xs

def pyReprPairs : List (String × Json) → List String
  | [] => []
  | (k, v) :: kvs => ("'" ++ k ++ "': " ++ pyRepr v) :: pyReprPairs kvs

end

/-- Association-list lookup, i.e. Python `dict[key]` when the key is
present (`dict.get(key)` with a hit). -/
def alistGet (kvs : List (String × Json)) (k : String) : Option Json :=
  match kvs with
  | [] => none
  | (k₀, v) :: rest => if k₀ = k then some v else alistGet rest k

/-- Python `d.get(key, default)` on a dict modelled as an association list. -/
def alistGetD (kvs : List (String × Json)) (k : String) (d : Json) : Json :=
  (alistGet kvs k).getD d

/-- Python `xs[-n:]`: the last `n` elements (the whole list when it is
shorter than `n`). -/
def lastN (n : Nat) (xs : List α) : List α :=
  xs.drop (xs.length - n)

/-- The line `f"\x7bmsg['role']\x7d: \x7bmsg['content']\x7d"` of
`summarize_history`. -/
def historyLine (m : Msg) : String :=
  m.role ++ ": " ++ m.content

/-- `"\n".join(...)` over the history lines of `summarize_history`. -/
def historyText (history : List Msg) : String :=
  String.intercalate "\n" (history.map historyLine)

/-- The system instruction of `summarize_history` (identical in both
variant files). -/
def summarizeHistorySysText : String :=
  "Summarize the following conversation history concisely, focusing on key details like the user's name, preferences, or previous search topics."

/-- The prompt `summarize_history` sends to the completion provider. -/
def summarizeHistoryPrompt (history : List Msg) : List Msg :=
  [⟨"system", summarizeHistorySysText⟩, ⟨"user", historyText history⟩]

/-- `summarize_history(history)` (identical in both variant files; the
completion call is the `llm` oracle). Returns the summary text together
with the number of completion calls made (0 when the history is empty,
since the function returns `""` before any call). -/
def summarize_history (llm : List Msg → String) (history : List Msg) : String × Nat :=
  if history = [] then ("", 0)
  else (llm (summarizeHistoryPrompt history), 1)

/-- `summarize_history(history) if len(history) > 10 else ""` — the guarded
history-summary step used before classification, news summarization and
the general answer (identical at all call sites in both files). -/
def historySummaryIfLong (llm : List Msg → String) (history : List Msg) : String × Nat :=
  if history.length > 10 then summarize_history llm history else ("", 0)

/-- The concatenated instruction literal of the classification system
message in `main` (lines 131-140 of chat.py, identical in chatlit.py).
In the Python source this whole literal, together with the trailing
summary line, is the `if`-branch of the conditional expression
`... if history_summary else ""`. -/
def classifyInstrText : String :=
  "Classify the user's message based on the conversation history and current input:\n" ++
  "- If the user wants the **latest news**, classify it as one of: 'news-tech', 'news-health', 'news-business', 'news-crypto'.\n" ++
  "- If the user is asking a **general question** (e.g., definition, explanation, or follow-up like 'What was my last search?'), return 'general'.\n" ++
  "Consider the conversation history to identify follow-up questions or context (e.g., user’s name or previous searches).\n" ++
  "Examples:\n" ++
  "- 'What is an ulcer?' → general\n" ++
  "- 'Tell me the latest about crypto' → news-crypto\n" ++
  "- 'Explain AI' → general\n" ++
  "- 'Any business updates?' → news-business\n" ++
  "- 'What was my last news search?' → general\n"

/-- The `content` of the classification system message. Python reads the
adjacent string literals as one concatenated expression, so the whole
text (instructions and summary line) is the then-branch of
`... if history_summary else ""`: when the summary is empty the content
is the empty string. -/
def classifySysContent (historySummary : String) : String :=
  if historySummary ≠ "" then
    classifyInstrText ++ "\nConversation history summary: " ++ historySummary
  else ""

/-- The `content` of the system message of `summarize_with_llm`. The same
conditional-expression shape as `classifySysContent`: the whole text is
the then-branch of `... if history_summary else ""`. -/
def newsSysContent (category historySummary : String) : String :=
  if historySummary ≠ "" then
    "You are a smart news assistant. Summarize the following " ++ category ++
    " news for a user. " ++
    "Use the conversation history summary to tailor the response if relevant." ++
    "\nConversation history summary: " ++ historySummary
  else ""

/-- The `content` of the system message of the general-question branch of
`main`; again the whole text is the then-branch of
`... if history_summary else ""`. -/
def generalSysContent (historySummary : String) : String :=
  if historySummary ≠ "" then
    "You are a helpful assistant. Answer the user's question based on the conversation history provided below. " ++
    "If the user asks about information from previous messages (e.g., their name or past searches), use the history to respond accurately." ++
    "\nConversation history summary: " ++ historySummary
  else ""

/-- `summarize_with_llm(news_text, category, history)` (identical in both
variant files; the completion call is the `llm` oracle). Returns the
summary text and the number of history-summary completion calls made. -/
def summarize_with_llm (llm : List Msg → String) (news_text category : String)
    (history : List Msg) : String × Nat :=
  let hs := historySummaryIfLong llm history
  let prompt := [⟨"system", newsSysContent category hs.1⟩, ⟨"user", news_text⟩] ++
    lastN 5 history
  (llm prompt, hs.2)

/-- ASCII whitespace as Python `str.strip` removes it (space, tab, newline,
carriage return, vertical tab, form feed; the embedding restricts Python's
Unicode whitespace set to its ASCII part). -/
def isPySpace (c : Char) : Bool :=
  c == ' ' || c == '\t' || c == '\n' || c == '\r' || c == '\x0b' || c == '\x0c'

/-- Python `s.strip()`: remove leading and trailing whitespace. -/
def pyStrip (s : String) : String :=
  String.mk (((s.data.dropWhile isPySpace).reverse.dropWhile isPySpace).reverse)

/-- Python `str.lower` on one character (the ASCII case; every label the
code compares against is ASCII). -/
def pyLowerChar (c : Char) : Char :=
  if 'A' ≤ c && c ≤ 'Z' then Char.ofNat (c.toNat + 32) else c

/-- Python `s.lower()`. -/
def pyLower (s : String) : String :=
  String.mk (s.data.map pyLowerChar)

/-- `.strip().lower()` as `main` applies it to the classifier output:
strip first, then lower-case. -/
def pyStripLower (s : String) : String :=
  pyLower (pyStrip s)

/-- Whether the character list starts with the pattern. -/
def startsWithL : List Char → List Char → Bool
  | _, [] => true
  | [], _ :: _ => false
  | c :: cs, p :: ps => c == p && startsWithL cs ps

/-- Whether the pattern occurs as a contiguous sublist: Python `sub in s`
for strings. -/
def hasSubL : List Char → List Char → Bool
  | [], pat => startsWithL [] pat
  | c :: cs, pat => startsWithL (c :: cs) pat || hasSubL cs pat

/-- Python `d[k]` / `d.get(k, default)` lookup order on a string-keyed dict
modelled as an association list (keys are distinct in every dict the code
builds). -/
def lookupStr (k : String) : List (String × String) → Option String
  | [] => none
  | (k₀, v) :: rest => if k₀ = k then some v else lookupStr k rest

/-- Python type name, used in the text of modelled exception messages. -/
def pyTypeName : Json → String
  | .null => "NoneType"
  | .bool _ => "bool"
  | .num _ => "int"
  | .str _ => "str"
  | .arr _ => "list"
  | .obj _ => "dict"

/-- Outcome of `requests.get(url)` as `get_real_news` observes it.
`resp status body` is a returned response; `body` is the result of
`response.json()`: `.ok j` a parsed JSON body, `.error e` the text of the
exception that `response.json()` raises on a non-JSON body. `exn e` is a
transport-level exception raised by `requests.get` itself, `e` its text. -/
inductive HttpOutcome where
  | resp (status : Nat) (body : Except String Json) : HttpOutcome
  | exn (e : String) : HttpOutcome

/-- Python `v.get(key, default)`: dict lookup with default; on a non-dict
value `.get` raises `AttributeError` (message text modelled). -/
def pyGetAttrDefault (j : Json) (k : String) (d : Json) : Except String Json :=
  match j with
  | .obj kvs => .ok (alistGetD kvs k d)
  | v => .error ("AttributeError: '" ++ pyTypeName v ++ "' object has no attribute 'get'")

/-- Python `v[:10]`: list and string slicing succeed, other types raise
`TypeError` (message texts modelled). -/
def pySlice10 : Json → Except String Json
  | .arr xs => .ok (.arr (xs.take 10))
  | .str s => .ok (.str (String.mk (s.data.take 10)))
  | .obj _ => .error "TypeError: unhashable type: 'slice'"
  | v => .error ("TypeError: '" ++ pyTypeName v ++ "' object is not subscriptable")

/-- Python `'title' in article`: key test on dicts, substring test on
strings, membership (equality with the string) on lists; other types raise
`TypeError`. -/
def pyHasTitle : Json → Except String Bool
  | .obj kvs => .ok (kvs.any (fun kv => kv.1 == "title"))
  | .str s => .ok (hasSubL s.data "title".data)
  | .arr xs => .ok (xs.any (fun x => match x with | .str t => t == "title" | _ => false))
  | v => .error ("TypeError: argument of type '" ++ pyTypeName v ++ "' is not iterable")

/-- Python `article['title']` (evaluated only when `'title' in article`
already held): dict item lookup; string/list subscription by a string key
raises `TypeError`. -/
def pyTitleItem : Json → Except String Json
  | .obj kvs =>
      match alistGet kvs "title" with
      | some v => .ok v
      | none => .error "KeyError: 'title'"
  | .str _ => .error "TypeError: string indices must be integers"
  | .arr _ => .error "TypeError: list indices must be integers or slices, not str"
  | v => .error ("TypeError: '" ++ pyTypeName v ++ "' object is not subscriptable")

/-- Python iteration `for article in v` over a value that survived `[:10]`
slicing: list elements, or the characters of a string as 1-character
strings. -/
def pyIterElems : Json → Except String (List Json)
  | .arr xs => .ok xs
  | .str s => .ok (s.data.map (fun c => Json.str (String.mk [c])))
  | v => .error ("TypeError: '" ++ pyTypeName v ++ "' object is not iterable")

/-- The list comprehension
`[f"- \x7barticle['title']\x7d" for article in articles if 'title' in article]`. -/
def titleLines : List Json → Except String (List String)
  | [] => .ok []
  | a :: rest => do
      let c ← pyHasTitle a
      if c then
        let t ← pyTitleItem a
        let r ← titleLines rest
        .ok (("- " ++ pyStr t) :: r)
      else
        titleLines rest

/-- The success branch of `get_real_news`:
`response.json().get("articles", [])[:10]` followed by the title
comprehension and `"\n".join`. -/
def extractTitles (j : Json) : Except String String := do
  let a ← pyGetAttrDefault j "articles" (.arr [])
  let s ← pySlice10 a
  let elems ← pyIterElems s
  let items ← titleLines elems
  .ok (String.intercalate "\n" items)

/-- The body of `get_real_news` after the URL is built (this `try` block is
identical in both variant files): never raises — every exception inside the
`try` is caught and turned into a `"Failed to fetch news: ..."` string. -/
def fetchNews (http : String → HttpOutcome) (url : String) : String :=
  match http url with
  | .exn e => "Failed to fetch news: " ++ e
  | .resp status body =>
      if status ≠ 200 then
        match (do
            let j ← body
            let m ← pyGetAttrDefault j "message" (.str "Unknown error")
            pure (pyStr m) : Except String String) with
        | .ok m => "Failed to fetch news: HTTP " ++ toString status ++ " - " ++ m
        | .error e => "Failed to fetch news: " ++ e
      else
        match (do
            let j ← body
            extractTitles j : Except String String) with
        | .ok t => t
        | .error e => "Failed to fetch news: " ++ e

namespace Chat

/-- The URL `chat.py`'s `get_real_news` builds (lines 38-43): the
`/v2/everything` keyword-search endpoint for `"cryptocurrency"`, the
`/v2/top-headlines` category endpoint otherwise. -/
def newsUrl (key category : String) : String :=
  if category = "cryptocurrency" then
    "https://newsapi.org/v2/everything?q=" ++ category ++ "&apiKey=" ++ key ++
      "&language=en&sortBy=publishedAt"
  else
    "https://newsapi.org/v2/top-headlines?category=" ++ category ++ "&apiKey=" ++ key ++
      "&language=en"

/-- `get_real_news(category)` of `chat.py`. -/
def get_real_news (http : String → HttpOutcome) (key category : String) : String :=
  fetchNews http (newsUrl key category)

end Chat

namespace Chatlit

/-- `category_mapping` of `chatlit.py`'s `get_real_news` (lines 27-31). -/
def category_mapping : List (String × String) :=
  [("tech", "technology"), ("finance", "business"), ("health", "health")]

/-- `category_mapping.get(category, category)` of `chatlit.py`. -/
def newsapiCategory (category : String) : String :=
  (lookupStr category category_mapping).getD category

/-- The URL `chatlit.py`'s `get_real_news` builds (line 35): the
`/v2/top-headlines` category endpoint for every category. -/
def newsUrl (key category : String) : String :=
  "https://newsapi.org/v2/top-headlines?category=" ++ newsapiCategory category ++
    "&apiKey=" ++ key ++ "&language=en"

/-- `get_real_news(category)` of `chatlit.py`. -/
def get_real_news (http : String → HttpOutcome) (key category : String) : String :=
  fetchNews http (newsUrl key category)

end Chatlit

/-- `valid_categories` of `main` (identical in both variant files). -/
def valid_categories : List (String × String) :=
  [("news-tech", "technology"), ("news-health", "health"),
   ("news-business", "business"), ("news-crypto", "cryptocurrency")]

/-- The classification prompt of `main`:
`[system] + history[-5:] + [\x7b"role": "user", "content": message.content\x7d]`
(identical in both variant files). `history` here is the session history
with the incoming user message already appended (step 1 of the turn). -/
def classificationPrompt (historySummary : String) (history : List Msg)
    (msgContent : String) : List Msg :=
  [⟨"system", classifySysContent historySummary⟩] ++ lastN 5 history ++
    [⟨"user", msgContent⟩]

/-- The general-question prompt of `main`: `[system] + history[-10:]`
(identical in both variant files). -/
def generalPrompt (historySummary : String) (history : List Msg) : List Msg :=
  [⟨"system", generalSysContent historySummary⟩] ++ lastN 10 history

/-- What one turn of `main` produces and does: the response sent to the
user, the session history afterwards, the news-provider URLs requested
(in order), and how many history-summary completion calls were made in
the classification step and in the dispatched branch. -/
structure TurnOut where
  response : String
  newHistory : List Msg
  urls : List String
  classifySummaryCalls : Nat
  branchSummaryCalls : Nat
deriving DecidableEq

namespace Chat

/-- One turn of `chat.py`'s `main` handler: append the user message,
classify (`.strip().lower()` the completion text), dispatch to the news
branch (fetch and summarize) or the general branch, append the assistant
response. -/
def main (llm : List Msg → String) (http : String → HttpOutcome) (key : String)
    (history0 : List Msg) (msgContent : String) : TurnOut :=
  let history := history0 ++ [⟨"user", msgContent⟩]
  let hs := historySummaryIfLong llm history
  let topic := pyStripLower (llm (classificationPrompt hs.1 history msgContent))
  match lookupStr topic valid_categories with
  | some category =>
      let news := get_real_news http key category
      let sw := summarize_with_llm llm news category history
      let response := "📰 Here is the latest **" ++ category ++ "** news:\n\n" ++ sw.1
      ⟨response, history ++ [⟨"assistant", response⟩], [newsUrl key category], hs.2, sw.2⟩
  | none =>
      let hs2 := historySummaryIfLong llm history
      let response := llm (generalPrompt hs2.1 history)
      ⟨response, history ++ [⟨"assistant", response⟩], [], hs.2, hs2.2⟩

end Chat

namespace Chatlit

/-- One turn of `chatlit.py`'s `main` handler: textually identical to
`chat.py`'s turn except that it calls `chatlit.py`'s `get_real_news`
(and the completion API it uses is the same abstracted `llm` oracle). -/
def main (llm : List Msg → String) (http : String → HttpOutcome) (key : String)
    (history0 : List Msg) (msgContent : String) : TurnOut :=
  let history := history0 ++ [⟨"user", msgContent⟩]
  let hs := historySummaryIfLong llm history
  let topic := pyStripLower (llm (classificationPrompt hs.1 history msgContent))
  match lookupStr topic valid_categories with
  | some category =>
      let news := get_real_news http key category
      let sw := summarize_with_llm llm news category history
      let response := "📰 Here is the latest **" ++ category ++ "** news:\n\n" ++ sw.1
      ⟨response, history ++ [⟨"assistant", response⟩], [newsUrl key category], hs.2, sw.2⟩
  | none =>
      let hs2 := historySummaryIfLong llm history
      let response := llm (generalPrompt hs2.1 history)
      ⟨response, history ++ [⟨"assistant", response⟩], [], hs.2, hs2.2⟩

end Chatlit

/-- The `chat_history.json` file as the handlers observe it:
`none` — the file does not exist; `some none` — it exists but `json.load`
raises `JSONDecodeError`; `some (some j)` — it parses to the value `j`. -/
def FileState : Type := Option (Option Json)

/-- Python `v[-1]` (evaluated in `start` only when `v` is truthy): last
element of a list, last character of a string; other types raise
(message texts modelled; a dict raises `KeyError` for the key `-1`). -/
def pyLastItem : Json → Except String Json
  | .arr [] => .error "IndexError: list index out of range"
  | .arr (x :: xs) => .ok (xs.getLastD x)
  | .str s =>
      match s.data.reverse with
      | [] => .error "IndexError: string index out of range"
      | c :: _ => .ok (.str (String.mk [c]))
  | .obj _ => .error "KeyError: -1"
  | v => .error ("TypeError: '" ++ pyTypeName v ++ "' object is not subscriptable")

/-- Python `v["session"]`: dict item lookup; other types raise `TypeError`
(`KeyError` when the key is missing). -/
def pySessionItem : Json → Except String Json
  | .obj kvs =>
      match alistGet kvs "session" with
      | some v => .ok v
      | none => .error "KeyError: 'session'"
  | .str _ => .error "TypeError: string indices must be integers"
  | .arr _ => .error "TypeError: list indices must be integers or slices, not str"
  | v => .error ("TypeError: '" ++ pyTypeName v ++ "' object is not subscriptable")

/-- The in-memory history value the `start` handler computes (identical in
both variant files): `[]` when the file is absent or `json.load` raises
`JSONDecodeError` (the only exception the `except` clause catches), else
`all_history[-1]["session"]` when the parsed value is truthy — an
indexing error there is not caught and escapes the handler
(`.error` case). -/
def startHistory (file : FileState) : Except String Json :=
  match file with
  | none => .ok (.arr [])
  | some none => .ok (.arr [])
  | some (some j) =>
      if j.truthy then do
        let last ← pyLastItem j
        pySessionItem last
      else .ok (.arr [])

/-- A session record `\x7b"timestamp": ..., "session": ...\x7d` as the `end`
handler appends it to the archive. -/
structure SessionRecord where
  timestamp : String
  session : List Msg
deriving DecidableEq, Repr

/-- The JSON object the code builds for one history message. -/
def encodeMsg (m : Msg) : Json :=
  .obj [("role", .str m.role), ("content", .str m.content)]

/-- The JSON object `end` appends for one session. -/
def encodeRecord (r : SessionRecord) : Json :=
  .obj [("timestamp", .str r.timestamp), ("session", .arr (r.session.map encodeMsg))]

/-- What one run of the `end` handler did. -/
structure EndOut where
  file : FileState
  appended : Option SessionRecord
  readFile : Bool
  wroteFile : Bool

/-- The `end` handler (identical in both variant files), as a transformer
of the archive file state. `history` is the session variable
(`none` — unset, `some h` — the list `h`); `ts` the formatted
`datetime.now()`. When the history is falsy (`None` or `[]`) the handler
returns before touching the file. Otherwise it loads the old archive
(absent file or `JSONDecodeError` give `[]`), appends this session's
record and writes the whole array back; `.append` on a parsed non-list
value raises `AttributeError`, which escapes. -/
def endModel (history : Option (List Msg)) (ts : String) (file : FileState) :
    Except String EndOut :=
  match history with
  | none => .ok ⟨file, none, false, false⟩
  | some [] => .ok ⟨file, none, false, false⟩
  | some (m :: rest) =>
      let loaded : Json :=
        match file with
        | none => .arr []
        | some none => .arr []
        | some (some j) => j
      match loaded with
      | .arr xs =>
          let r : SessionRecord := ⟨ts, m :: rest⟩
          .ok ⟨some (some (.arr (xs ++ [encodeRecord r]))), some r,
            (match file with | none => false | some _ => true), true⟩
      | j => .error ("AttributeError: '" ++ pyTypeName j ++ "' object has no attribute 'append'")

/-- Traverse a list with a partial reader: `some` of all results, `none`
as soon as one element fails to read. -/
def optMapList {α : Type} (f : Json → Option α) : List Json → Option (List α)
  | [] => some []
  | j :: rest =>
      match f j, optMapList f rest with
      | some a, some ys => some (a :: ys)
      | _, _ => none

/-- Reading one message back from the archive, by its `role` and `content`
keys (how every consumer of a history message reads it). -/
def decodeMsg (j : Json) : Option Msg :=
  match j with
  | .obj kvs =>
      match alistGet kvs "role", alistGet kvs "content" with
      | some (.str r), some (.str c) => some ⟨r, c⟩
      | _, _ => none
  | _ => none

/-- Reading one session record back from the archive, by its `timestamp`
and `session` keys (the format of section 6 of the spec, the one `end`
writes and `start` reads). -/
def decodeRecord (j : Json) : Option SessionRecord :=
  match j with
  | .obj kvs =>
      match alistGet kvs "timestamp", alistGet kvs "session" with
      | some (.str ts), some (.arr ms) =>
          (optMapList decodeMsg ms).map (fun sess => ⟨ts, sess⟩)
      | _, _ => none
  | _ => none

/-- Reading the whole archive back: the JSON array of session records. -/
def decodeArchive (j : Json) : Option (List SessionRecord) :=
  match j with
  | .arr xs => optMapList decodeRecord xs
  | _ => none

/-- Running the `end` handler once per session record, in order (one
session end per record), threading the archive file state. -/
def writeSessions (file : FileState) : List SessionRecord → Except String FileState
  | [] => .ok file
  | r :: rs => do
      let out ← endModel (some r.session) r.timestamp file
      writeSessions out.file rs

/-! ## Derived definitions used by the verification -/

/-- The normalized classifier label of one turn: `main` appends the user
message to the history, computes the guarded history summary, sends the
classification prompt to the completion provider and applies
`.strip().lower()` to the returned text. -/
def turnTopic (llm : List Msg → String) (history0 : List Msg) (msg : String) : String :=
  pyStripLower (llm (classificationPrompt
    (historySummaryIfLong llm (history0 ++ [⟨"user", msg⟩])).1
    (history0 ++ [⟨"user", msg⟩]) msg))

/-- Reading the archive back from the file state: an absent archive holds
no sessions; an unparseable one cannot be read; a parsed one is read
record by record in the format `end` writes (section 6 of the spec). -/
def readBack (file : FileState) : Option (List SessionRecord) :=
  match file with
  | none => some []
  | some none => none
  | some (some j) => decodeArchive j

/-- Run the `end` handler once per session record starting from an absent
archive file, then read the archive back. -/
def writeThenRead (rs : List SessionRecord) : Option (List SessionRecord) :=
  match writeSessions none rs with
  | .ok f => readBack f
  | .error _ => none

/-- Claim C6 as stated: for every category input and every provider
behaviour with a non-success HTTP status, the fetch result is a string of
the exact shape `"Failed to fetch news: HTTP <code> - <message>"`. -/
def claimC6Format : Prop :=
  ∀ (key category : String) (status : Nat) (body : Except String Json),
    status ≠ 200 →
      ∃ msg, Chat.get_real_news (fun _ => .resp status body) key category
        = "Failed to fetch news: HTTP " ++ toString status ++ " - " ++ msg

/-- A completion oracle that answers `news-tech` exactly when asked the
three-message classification prompt whose system content is empty, and
`general` otherwise. -/
def llmProbe : List Msg → String := fun p =>
  if p = [⟨"system", ""⟩, ⟨"user", "hi"⟩, ⟨"user", "hi"⟩] then "news-tech" else "general"

/-- A completion oracle that always answers `news-crypto`. -/
def llmCrypto : List Msg → String := fun _ => "news-crypto"

/-- A completion oracle that always answers `general`. -/
def llmGeneral : List Msg → String := fun _ => "general"

/-- An HTTP oracle on which every request raises a transport exception. -/
def httpDown : String → HttpOutcome := fun _ => .exn "ConnectionError: network is down"

/-- Two concrete sessions used to evaluate the archive round trip. -/
def demoSessions : List SessionRecord :=
  [⟨"2024-01-01 10:00:00", [⟨"user", "hi"⟩, ⟨"assistant", "hello"⟩]⟩,
   ⟨"2024-01-02 11:30:00", [⟨"user", "any business updates?"⟩]⟩]

/-! ## Helper lemmas -/

theorem historySummaryIfLong_snd (llm : List Msg → String) (h : List Msg) :
    (historySummaryIfLong llm h).2 = if 10 < h.length then 1 else 0 := by
  unfold historySummaryIfLong summarize_history
  by_cases hlen : 10 < h.length
  · have hne : h ≠ [] := by
      intro he
      rw [he] at hlen
      simp at hlen
    simp [hlen, hne]
  · simp [hlen]

theorem lastN_ne_nil {α : Type} (n : Nat) (xs : List α) (hn : 0 < n) (hx : xs ≠ []) :
    lastN n xs ≠ [] := by
  unfold lastN
  intro hcontra
  have hlen := congrArg List.length hcontra
  rw [List.length_drop] at hlen
  simp only [List.length_nil] at hlen
  have h0 : xs.length ≠ 0 := fun hz => hx (List.length_eq_zero.mp hz)
  omega

theorem lastN_concat_getLast {α : Type} (n : Nat) (xs : List α) (x : α) (hn : 0 < n) :
    (lastN n (xs ++ [x])).getLast? = some x := by
  unfold lastN
  have hk : (xs ++ [x]).length - n ≤ xs.length := by
    rw [List.length_append]
    simp only [List.length_singleton]
    omega
  rw [List.drop_append_of_le_length hk, List.getLast?_concat]

theorem getLast_cons_of_ne_nil {α : Type} (a : α) (l : List α) (hl : l ≠ []) :
    (a :: l).getLast? = l.getLast? := by
  cases l with
  | nil => exact absurd rfl hl
  | cons b t => rw [List.getLast?_cons_cons]

theorem lookupStr_valid (t c : String) (h : lookupStr t valid_categories = some c) :
    (t, c) = ("news-tech", "technology") ∨ (t, c) = ("news-health", "health") ∨
    (t, c) = ("news-business", "business") ∨ (t, c) = ("news-crypto", "cryptocurrency") := by
  simp only [valid_categories, lookupStr] at h
  split_ifs at h with h1 h2 h3 h4
  · cases h1; cases Option.some.inj h; exact Or.inl rfl
  · cases h2; cases Option.some.inj h; exact Or.inr (Or.inl rfl)
  · cases h3; cases Option.some.inj h; exact Or.inr (Or.inr (Or.inl rfl))
  · cases h4; cases Option.some.inj h; exact Or.inr (Or.inr (Or.inr rfl))

theorem lookupStr_none (t : String)
    (h : t ∉ (["news-tech", "news-health", "news-business", "news-crypto"] : List String)) :
    lookupStr t valid_categories = none := by
  simp only [List.mem_cons, List.not_mem_nil, or_false, not_or] at h
  obtain ⟨h1, h2, h3, h4⟩ := h
  simp only [valid_categories, lookupStr]
  split_ifs with a1 a2 a3 a4
  · exact absurd a1.symm h1
  · exact absurd a2.symm h2
  · exact absurd a3.symm h3
  · exact absurd a4.symm h4
  · rfl

theorem newsUrl_eq_of_not_crypto (key c : String)
    (h : c = "technology" ∨ c = "health" ∨ c = "business") :
    Chat.newsUrl key c = Chatlit.newsUrl key c := by
  have hmap : Chatlit.newsapiCategory c = c := by
    rcases h with h | h | h <;> subst h <;> rfl
  have hne : c ≠ "cryptocurrency" := by
    rcases h with h | h | h <;> subst h <;> decide
  simp only [Chat.newsUrl, Chatlit.newsUrl, hmap]
  rw [if_neg hne]

theorem decodeMsg_encodeMsg (m : Msg) : decodeMsg (encodeMsg m) = some m := rfl

theorem mapM_decodeMsg (ms : List Msg) :
    optMapList decodeMsg (ms.map encodeMsg) = some ms := by
  induction ms with
  | nil => rfl
  | cons a t ih => simp [optMapList, decodeMsg_encodeMsg, ih]

theorem decodeRecord_encodeRecord (r : SessionRecord) :
    decodeRecord (encodeRecord r) = some r := by
  have h1 : decodeRecord (encodeRecord r)
      = (optMapList decodeMsg (r.session.map encodeMsg)).map
          (fun sess => ⟨r.timestamp, sess⟩) := rfl
  rw [h1, mapM_decodeMsg]
  rfl

theorem decodeArchive_encode (rs : List SessionRecord) :
    decodeArchive (.arr (rs.map encodeRecord)) = some rs := by
  show optMapList decodeRecord (rs.map encodeRecord) = some rs
  induction rs with
  | nil => rfl
  | cons r t ih => simp [optMapList, decodeRecord_encodeRecord, ih]

theorem endModel_cons (r : SessionRecord) (a : Msg) (t : List Msg) (hat : r.session = a :: t)
    (pre : List Json) :
    endModel (some r.session) r.timestamp (some (some (.arr pre)))
      = .ok ⟨some (some (.arr (pre ++ [encodeRecord r]))), some r, true, true⟩ := by
  cases r with
  | mk ts sess =>
      simp only at hat
      subst hat
      rfl

theorem endModel_cons_absent (r : SessionRecord) (a : Msg) (t : List Msg)
    (hat : r.session = a :: t) :
    endModel (some r.session) r.timestamp none
      = .ok ⟨some (some (.arr [encodeRecord r])), some r, false, true⟩ := by
  cases r with
  | mk ts sess =>
      simp only at hat
      subst hat
      rfl

theorem writeSessions_from_arr (rs : List SessionRecord) :
    (∀ r ∈ rs, r.session ≠ []) → ∀ pre : List Json,
      writeSessions (some (some (.arr pre))) rs
        = .ok (some (some (.arr (pre ++ rs.map encodeRecord)))) := by
  induction rs with
  | nil =>
      intro _ pre
      simp [writeSessions]
  | cons r rs ih =>
      intro h pre
      have hr : r.session ≠ [] := h r (by simp)
      obtain ⟨a, t, hat⟩ : ∃ a t, r.session = a :: t := by
        cases hs : r.session with
        | nil => exact absurd hs hr
        | cons a t => exact ⟨a, t, rfl⟩
      rw [writeSessions, endModel_cons r a t hat pre]
      have := ih (fun x hx => h x (List.mem_cons_of_mem _ hx)) (pre ++ [encodeRecord r])
      rw [show (Except.ok (ε := String)
            (⟨some (some (.arr (pre ++ [encodeRecord r]))), some r, true, true⟩ : EndOut)
          >>= fun out => writeSessions out.file rs)
        = writeSessions (some (some (.arr (pre ++ [encodeRecord r])))) rs from rfl]
      rw [this, List.append_assoc]
      rfl

/-! ## Claim theorems -/

/-- C1: for a turn over a history of length ≤ 10 (summary text empty), the
classification request does NOT begin with a system message enumerating the
label vocabulary: its system message content is the empty string, because
the whole instruction literal is the then-branch of the conditional
expression `... if history_summary else ""`. Evaluated at the failing
input: empty session history, incoming message `hi`. The second conjunct
shows the turn really sends exactly that three-message prompt: an oracle
answering `news-tech` only on that prompt drives `main` into the news
branch. -/
theorem c1_classification_system_content_empty :
    classificationPrompt (historySummaryIfLong llmProbe ([] ++ [⟨"user", "hi"⟩])).1
        ([] ++ [⟨"user", "hi"⟩]) "hi"
      = [⟨"system", ""⟩, ⟨"user", "hi"⟩, ⟨"user", "hi"⟩]
    ∧ (Chat.main llmProbe httpDown "K" [] "hi").urls
      = ["https://newsapi.org/v2/top-headlines?category=technology&apiKey=K&language=en"]
    ∧ (Chatlit.main llmProbe httpDown "K" [] "hi").urls
      = ["https://newsapi.org/v2/top-headlines?category=technology&apiKey=K&language=en"] := by
  decide

/-- C3, counterexample: the claim says the one category outside the
provider's standard set, `cryptocurrency`, uses the `/v2/everything`
search endpoint — but `chatlit.py`'s fetcher (one of the two fetchers the
claim cites) builds the `/v2/top-headlines` URL for `cryptocurrency` too. -/
theorem c3_chatlit_crypto_counterexample :
    Chatlit.newsUrl "K" "cryptocurrency"
      = "https://newsapi.org/v2/top-headlines?category=cryptocurrency&apiKey=K&language=en"
    ∧ Chatlit.newsUrl "K" "cryptocurrency" ≠ Chat.newsUrl "K" "cryptocurrency" := by
  decide

/-- C3, amended: `chat.py`'s fetcher builds the `/v2/everything` keyword
URL exactly for `cryptocurrency` and the `/v2/top-headlines` category URL
for every other category; `chatlit.py`'s fetcher builds the
`/v2/top-headlines` category URL for every category (after the
tech→technology, finance→business, health→health aliasing), including
`cryptocurrency`. -/
theorem c3_amended_url_shapes (key category : String) :
    (category = "cryptocurrency" →
        Chat.newsUrl key category
          = "https://newsapi.org/v2/everything?q=" ++ category ++ "&apiKey=" ++ key ++
              "&language=en&sortBy=publishedAt")
    ∧ (category ≠ "cryptocurrency" →
        Chat.newsUrl key category
          = "https://newsapi.org/v2/top-headlines?category=" ++ category ++ "&apiKey=" ++
              key ++ "&language=en")
    ∧ Chatlit.newsUrl key category
        = "https://newsapi.org/v2/top-headlines?category=" ++ Chatlit.newsapiCategory category ++
            "&apiKey=" ++ key ++ "&language=en"
    ∧ Chatlit.newsapiCategory "cryptocurrency" = "cryptocurrency" := by
  refine ⟨?_, ?_, rfl, by decide⟩
  · intro h
    simp only [Chat.newsUrl]
    rw [if_pos h]
  · intro h
    simp only [Chat.newsUrl]
    rw [if_neg h]

/-- C7, counterexample: a malformed archive that is valid JSON but not an
archive of session records — here `[\x7b"x": 0\x7d]` — makes the `start`
handler raise (`KeyError`), because the `except` clause catches only
`JSONDecodeError`; the in-memory history is not reset to empty. -/
theorem c7_start_shape_error_counterexample :
    startHistory (some (some (.arr [.obj [("x", .num 0)]]))) = .error "KeyError: 'session'" := rfl

/-- C7, amended: for an absent archive file and for every archive file
whose content fails JSON parsing (the `JSONDecodeError` case), the `start`
handler produces the empty in-memory history and no exception escapes;
a file that parses as JSON but lacks the record shape can still raise. -/
theorem c7_amended_parse_failure_resets :
    startHistory none = .ok (.arr []) ∧ startHistory (some none) = .ok (.arr []) :=
  ⟨rfl, rfl⟩

/-- C8: writing any sequence of session records through the `end` handler
(one handler run per record, starting from an absent archive file) and
then reading the archive back yields exactly the same records, with the
same role/content ordering inside each session. The hypothesis mirrors
the `end` handler's guard: a session must be non-empty to be written. -/
theorem c8_archive_round_trip (rs : List SessionRecord)
    (h : ∀ r ∈ rs, r.session ≠ []) :
    writeThenRead rs = some rs := by
  cases rs with
  | nil => rfl
  | cons r rs =>
      have hr : r.session ≠ [] := h r (by simp)
      obtain ⟨a, t, hat⟩ : ∃ a t, r.session = a :: t := by
        cases hs : r.session with
        | nil => exact absurd hs hr
        | cons a t => exact ⟨a, t, rfl⟩
      have hstep : writeSessions none (r :: rs)
          = .ok (some (some (.arr ([encodeRecord r] ++ rs.map encodeRecord)))) := by
        rw [writeSessions, endModel_cons_absent r a t hat]
        rw [show (Except.ok (ε := String)
              (⟨some (some (.arr [encodeRecord r])), some r, false, true⟩ : EndOut)
            >>= fun out => writeSessions out.file rs)
          = writeSessions (some (some (.arr [encodeRecord r]))) rs from rfl]
        exact writeSessions_from_arr rs (fun x hx => h x (List.mem_cons_of_mem _ hx))
          [encodeRecord r]
      unfold writeThenRead
      rw [hstep]
      show decodeArchive (.arr ([encodeRecord r] ++ rs.map encodeRecord)) = some (r :: rs)
      rw [show ([encodeRecord r] ++ rs.map encodeRecord) = (r :: rs).map encodeRecord from rfl]
      exact decodeArchive_encode (r :: rs)

/-- C8, witness: the round trip evaluated on two concrete sessions. -/
theorem c8_archive_round_trip_witness : writeThenRead demoSessions = some demoSessions :=
  c8_archive_round_trip demoSessions (by decide)

/-- C10: when the session history is unset or empty at chat end, the `end`
handler returns before reading or writing the archive file (the file
state is unchanged, no read happens, no write happens); and whenever the
handler does append a record, that record's session is the non-empty
in-memory history — this program never appends a record with an empty
session. -/
theorem c10_empty_history_end_is_noop (ts : String) (file : FileState) :
    endModel none ts file = .ok ⟨file, none, false, false⟩
    ∧ endModel (some []) ts file = .ok ⟨file, none, false, false⟩
    ∧ (∀ h out, endModel (some h) ts file = .ok out →
        ∀ r, out.appended = some r → r.session = h ∧ h ≠ []) := by
  refine ⟨rfl, rfl, ?_⟩
  intro h out hok r happ
  cases h with
  | nil =>
      cases hok
      cases happ
  | cons a t =>
      rcases file with _ | f
      · cases hok
        cases happ
        exact ⟨rfl, by simp⟩
      · rcases f with _ | j
        · cases hok
          cases happ
          exact ⟨rfl, by simp⟩
        · cases j with
          | arr xs =>
              cases hok
              cases happ
              exact ⟨rfl, by simp⟩
          | null => exact Except.noConfusion hok
          | bool b => exact Except.noConfusion hok
          | num n => exact Except.noConfusion hok
          | str s => exact Except.noConfusion hok
          | obj kvs => exact Except.noConfusion hok

/-- C2, counterexample: with the same completion oracle (classifier label
`news-crypto`), the same provider behaviour and the same history, the two
variants issue different news-provider requests: `chat.py` requests the
`/v2/everything` keyword endpoint, `chatlit.py` the `/v2/top-headlines`
category endpoint. -/
theorem c2_crypto_request_differs :
    (Chat.main llmCrypto httpDown "K" [] "crypto news").urls
      = ["https://newsapi.org/v2/everything?q=cryptocurrency&apiKey=K&language=en&sortBy=publishedAt"]
    ∧ (Chatlit.main llmCrypto httpDown "K" [] "crypto news").urls
      = ["https://newsapi.org/v2/top-headlines?category=cryptocurrency&apiKey=K&language=en"]
    ∧ (Chat.main llmCrypto httpDown "K" [] "crypto news").urls
      ≠ (Chatlit.main llmCrypto httpDown "K" [] "crypto news").urls := by
  decide

/-- C2, amended: on every turn whose normalized classifier label is not
`news-crypto` the two variants are functionally equivalent apart from the
completion API (the shared `llm` oracle): same news-provider request,
same response, same new history, same summary-call counts. -/
theorem c2_variants_agree_off_crypto (llm : List Msg → String) (http : String → HttpOutcome)
    (key : String) (h0 : List Msg) (m : String)
    (hne : turnTopic llm h0 m ≠ "news-crypto") :
    Chat.main llm http key h0 m = Chatlit.main llm http key h0 m := by
  rcases hl : lookupStr (turnTopic llm h0 m) valid_categories with _ | c
  · simp only [turnTopic] at hl
    simp only [Chat.main, Chatlit.main]
    rw [hl]
  · have hcases := lookupStr_valid _ _ hl
    have hc : c = "technology" ∨ c = "health" ∨ c = "business" := by
      rcases hcases with h | h | h | h
      · exact Or.inl (congrArg Prod.snd h)
      · exact Or.inr (Or.inl (congrArg Prod.snd h))
      · exact Or.inr (Or.inr (congrArg Prod.snd h))
      · exact absurd (congrArg Prod.fst h) hne
    simp only [turnTopic] at hl
    simp only [Chat.main, Chatlit.main]
    rw [hl]
    simp only [Chat.get_real_news, Chatlit.get_real_news]
    rw [newsUrl_eq_of_not_crypto key c hc]

/-- C2, witness for the amended theorem: a concrete non-crypto turn on
which the two variants agree. -/
theorem c2_variants_agree_off_crypto_witness :
    Chat.main llmGeneral httpDown "K" [] "hello" = Chatlit.main llmGeneral httpDown "K" [] "hello" :=
  c2_variants_agree_off_crypto llmGeneral httpDown "K" [] "hello" (by decide)

/-- C4: the number of history-summary completion calls made before
classification, and in the dispatched branch (news summarization or the
general answer), in either variant: 0 when the turn's history (with the
incoming message appended) has length ≤ 10, and exactly 1 in each step
when it is longer than 10. -/
theorem c4_summary_call_counts (llm : List Msg → String) (http : String → HttpOutcome)
    (key : String) (h0 : List Msg) (m : String) :
    (Chat.main llm http key h0 m).classifySummaryCalls
        = (if 10 < (h0 ++ [(⟨"user", m⟩ : Msg)]).length then 1 else 0)
    ∧ (Chat.main llm http key h0 m).branchSummaryCalls
        = (if 10 < (h0 ++ [(⟨"user", m⟩ : Msg)]).length then 1 else 0)
    ∧ (Chatlit.main llm http key h0 m).classifySummaryCalls
        = (if 10 < (h0 ++ [(⟨"user", m⟩ : Msg)]).length then 1 else 0)
    ∧ (Chatlit.main llm http key h0 m).branchSummaryCalls
        = (if 10 < (h0 ++ [(⟨"user", m⟩ : Msg)]).length then 1 else 0) := by
  have hs := historySummaryIfLong_snd llm (h0 ++ [(⟨"user", m⟩ : Msg)])
  refine ⟨?_, ?_, ?_, ?_⟩ <;>
    · simp only [Chat.main, Chatlit.main, summarize_with_llm]
      split <;> simpa using hs

/-- C5: the orchestrator compares the classifier output only after
`.strip().lower()` normalization (first conjunct: the turn's label is
exactly the stripped-then-lowered completion text), and every normalized
label that is not one of the four news labels routes the turn to the
general path in both variants: no news request is issued and the
response is the completion for the general prompt. -/
theorem c5_unrecognized_label_routes_general (llm : List Msg → String)
    (http : String → HttpOutcome) (key : String) (h0 : List Msg) (m : String) :
    turnTopic llm h0 m
      = pyLower (pyStrip (llm (classificationPrompt
          (historySummaryIfLong llm (h0 ++ [⟨"user", m⟩])).1 (h0 ++ [⟨"user", m⟩]) m)))
    ∧ (turnTopic llm h0 m
          ∉ (["news-tech", "news-health", "news-business", "news-crypto"] : List String) →
        (Chat.main llm http key h0 m).urls = []
        ∧ (Chat.main llm http key h0 m).response
            = llm (generalPrompt (historySummaryIfLong llm (h0 ++ [⟨"user", m⟩])).1
                (h0 ++ [⟨"user", m⟩]))
        ∧ (Chatlit.main llm http key h0 m).urls = []
        ∧ (Chatlit.main llm http key h0 m).response
            = llm (generalPrompt (historySummaryIfLong llm (h0 ++ [⟨"user", m⟩])).1
                (h0 ++ [⟨"user", m⟩]))) := by
  refine ⟨rfl, ?_⟩
  intro hmem
  have hn := lookupStr_none _ hmem
  simp only [turnTopic] at hn
  simp only [Chat.main, Chatlit.main]
  rw [hn]
  exact ⟨rfl, rfl, rfl, rfl⟩

/-- C6, counterexample to the claim as stated: a provider behaviour with a
non-success status whose response body is not JSON (here the modelled
`response.json()` exception text is CPython's). The fetch result embeds
that exception message instead of the claimed
`"Failed to fetch news: HTTP <code> - <message>"` shape. -/
theorem c6_http_format_counterexample : ¬ claimC6Format := by
  intro hclaim
  obtain ⟨msg, hm⟩ := hclaim "K" "technology" 401
    (.error "Expecting value: line 1 column 1 (char 0)") (by decide)
  have hlhs : Chat.get_real_news
      (fun _ => .resp 401 (.error "Expecting value: line 1 column 1 (char 0)")) "K" "technology"
      = "Failed to fetch news: Expecting value: line 1 column 1 (char 0)" := by decide
  rw [hlhs] at hm
  rw [show toString (401 : Nat) = "401" from rfl] at hm
  have h2 := congrArg (fun s : String => s.data.take 33) hm
  simp only [String.data_append] at h2
  rw [List.take_left' (by decide)] at h2
  exact absurd h2 (by decide)

/-- C6, amended: the fetcher never raises (it is a total function into
strings); on a transport-level exception it returns a failure string
embedding the exception message (both variants); on a non-success status
whose body parses as a JSON object it returns
`"Failed to fetch news: HTTP <code> - <message>"` with the body's
`message` field (default `Unknown error`); on a non-success status whose
body is not JSON it returns a failure string embedding the read
exception's message; and the fetch result — failure string or not — is
passed unchanged as the news text into `summarize_with_llm`. -/
theorem c6_amended_failure_strings (key category e : String) (status : Nat)
    (kvs : List (String × Json)) (llm : List Msg → String) (http : String → HttpOutcome)
    (h0 : List Msg) (m c : String) :
    Chat.get_real_news (fun _ => .exn e) key category = "Failed to fetch news: " ++ e
    ∧ Chatlit.get_real_news (fun _ => .exn e) key category = "Failed to fetch news: " ++ e
    ∧ (status ≠ 200 →
        Chat.get_real_news (fun _ => .resp status (.ok (.obj kvs))) key category
          = "Failed to fetch news: HTTP " ++ toString status ++ " - "
              ++ pyStr (alistGetD kvs "message" (.str "Unknown error")))
    ∧ (status ≠ 200 →
        Chat.get_real_news (fun _ => .resp status (.error e)) key category
          = "Failed to fetch news: " ++ e)
    ∧ (lookupStr (turnTopic llm h0 m) valid_categories = some c →
        (Chat.main llm http key h0 m).response
          = "📰 Here is the latest **" ++ c ++ "** news:\n\n"
              ++ (summarize_with_llm llm (Chat.get_real_news http key c) c
                    (h0 ++ [⟨"user", m⟩])).1) := by
  refine ⟨rfl, rfl, ?_, ?_, ?_⟩
  · intro h
    simp only [Chat.get_real_news, fetchNews]
    rw [if_pos h]
    rfl
  · intro h
    simp only [Chat.get_real_news, fetchNews]
    rw [if_pos h]
    rfl
  · intro hc
    simp only [turnTopic] at hc
    simp only [Chat.main]
    rw [hc]

/-- C9: the classification prompt of a turn ends with the incoming user
message twice — its last element is the separately appended
`\x7b"role": "user", "content": message.content\x7d`, and the element before
it (the last element of the `history[-5:]` slice) is that same message,
because step 1 of the turn already appended it to the history. -/
theorem c9_message_twice_in_classification_prompt (llm : List Msg → String)
    (h0 : List Msg) (m : String) :
    (classificationPrompt (historySummaryIfLong llm (h0 ++ [⟨"user", m⟩])).1
        (h0 ++ [⟨"user", m⟩]) m).getLast? = some ⟨"user", m⟩
    ∧ ((classificationPrompt (historySummaryIfLong llm (h0 ++ [⟨"user", m⟩])).1
        (h0 ++ [⟨"user", m⟩]) m).dropLast).getLast? = some ⟨"user", m⟩ := by
  constructor
  · unfold classificationPrompt
    exact List.getLast?_concat _
  · unfold classificationPrompt
    rw [List.dropLast_concat]
    have h5 : lastN 5 (h0 ++ [(⟨"user", m⟩ : Msg)]) ≠ [] :=
      lastN_ne_nil 5 _ (by omega) (by simp)
    rw [List.singleton_append, getLast_cons_of_ne_nil _ _ h5]
    exact lastN_concat_getLast 5 h0 _ (by omega)
